import Mathlib

/-!
# rtc-fake: a shallow embedding of `rtc-fake.c`

The driver keeps three module-wide variables (`begtime`, `time`, `can_set_time`) and
offers `probe`, `read_time` and `set_time`.  The variables become an explicit `State`
record that every operation receives and returns; the uptime clock read by `get_uptime`
and the outcome of `rtc_device_register` are inputs of the operation that consults them.

Integer types follow the LP64 kernel ABI: `int` and `unsigned int` have 32 bits,
`long`/`time_t` and `unsigned long` have 64 bits.  Unsigned values are natural numbers
reduced modulo the width, signed values are integers.
-/

namespace RtcFake

/-! ## Constants and integer conversions -/

/-- Kernel constant `NSEC_PER_SEC`. -/
def NSEC_PER_SEC : Int := 1000000000

/-- Errno `ENODEV`. -/
def ENODEV : Int := 19

/-- Errno `EINVAL`. -/
def EINVAL : Int := 22

/-- Errno `ENOSYS`. -/
def ENOSYS : Int := 38

/-- Number of values of an `unsigned long`, that is `2 ^ 64`. -/
def ULONG_MOD : Nat := 18446744073709551616

/-- Conversion of an integer value to `unsigned long`. -/
def to_ulong (x : Int) : Nat := (x % (18446744073709551616 : Int)).toNat

/-- Conversion of an integer value to `unsigned int`. -/
def to_uint (x : Int) : Nat := (x % (4294967296 : Int)).toNat

/-- Conversion of an integer value to `int` (two's complement). -/
def to_int (x : Int) : Int :=
  let m := x % (4294967296 : Int)
  if m < 2147483648 then m else m - 4294967296

/-! ## Data model -/

/-- Kernel `struct timespec`: `time_t tv_sec; long tv_nsec;`. -/
structure timespec where
  tv_sec : Int
  tv_nsec : Int
deriving DecidableEq, Repr

/-- Kernel `struct rtc_time`; every field is a C `int`. -/
structure rtc_time where
  tm_sec : Int
  tm_min : Int
  tm_hour : Int
  tm_mday : Int
  tm_mon : Int
  tm_year : Int
  tm_wday : Int
  tm_yday : Int
  tm_isdst : Int
deriving DecidableEq, Repr

/-- The module-wide variables of the driver.  `registered` records that
`rtc_device_register` succeeded and the device was stored with `platform_set_drvdata`;
only then is the operations table reachable by users of the RTC class. -/
structure State where
  begtime : timespec
  time : Nat
  can_set_time : Bool
  registered : Bool
deriving DecidableEq, Repr

/-- The pair the clock computation depends on. -/
def State.baseline (st : State) : timespec × Nat := (st.begtime, st.time)

/-- Total nanoseconds denoted by a timespec. -/
def timespec.ns (ts : timespec) : Int := ts.tv_sec * NSEC_PER_SEC + ts.tv_nsec

/-! ## Kernel helpers used by the driver -/

/-- Kernel `timespec_sub(lhs, rhs)`: `set_normalized_timespec` applied to the field-wise
differences.  Its two loops move whole seconds out of the nanosecond field until
`0 <= tv_nsec < NSEC_PER_SEC`, which is floor division by `NSEC_PER_SEC`. -/
def timespec_sub (lhs rhs : timespec) : timespec :=
  let sec := lhs.tv_sec - rhs.tv_sec
  let nsec := lhs.tv_nsec - rhs.tv_nsec
  { tv_sec := sec + nsec / NSEC_PER_SEC, tv_nsec := nsec % NSEC_PER_SEC }

/-- Kernel `is_leap_year(unsigned int year)`. -/
def is_leap_year (year : Nat) : Bool :=
  (year % 4 == 0 && year % 100 != 0) || year % 400 == 0

/-- Kernel table `rtc_days_in_month`. -/
def rtc_days_in_month : List Int := [31, 28, 31, 30, 31, 30, 31, 31, 30, 31, 30, 31]

/-- Kernel `rtc_month_days(unsigned int month, unsigned int year)`. -/
def rtc_month_days (month year : Nat) : Int :=
  rtc_days_in_month.getD month 0 + (if is_leap_year year && month == 1 then 1 else 0)

/-- Kernel macro `LEAPS_THRU_END_OF(y)` on `unsigned int`. -/
def LEAPS_THRU_END_OF (y : Nat) : Nat :=
  (y / 4 + 4294967296 - y / 100 + y / 400) % 4294967296

/-- Kernel `rtc_valid_tm`: `0` for a structurally valid calendar time, `-EINVAL`
otherwise. -/
def rtc_valid_tm (tm : rtc_time) : Int :=
  if tm.tm_year < 70
      ∨ to_uint tm.tm_mon ≥ 12
      ∨ tm.tm_mday < 1
      ∨ tm.tm_mday > rtc_month_days (to_uint tm.tm_mon) (to_uint (tm.tm_year + 1900))
      ∨ to_uint tm.tm_hour ≥ 24
      ∨ to_uint tm.tm_min ≥ 60
      ∨ to_uint tm.tm_sec ≥ 60 then
    -EINVAL
  else 0

/-- Kernel `mktime` on `unsigned int` arguments, returning `unsigned long`. -/
def mktime (year0 mon0 day hour min sec : Nat) : Nat :=
  let mon1 := (mon0 + 4294967296 - 2) % 4294967296
  let wrap : Bool := decide (to_int mon1 ≤ 0)
  let mon := if wrap then (mon1 + 12) % 4294967296 else mon1
  let year := if wrap then (year0 + 4294967296 - 1) % 4294967296 else year0
  let days := (year / 4 + 4294967296 - year / 100 + year / 400
                + (367 * mon) % 4294967296 / 12 + day) % 4294967296
  let d := (days + (year * 365) % 4294967296 + 18446744073709551616 - 719499)
                % 18446744073709551616
  let h := (d * 24 + hour) % 18446744073709551616
  let m := (h * 60 + min) % 18446744073709551616
  (m * 60 + sec) % 18446744073709551616

/-- Kernel `rtc_tm_to_time`: the value it stores through its `unsigned long *` argument
(its own return value is always `0`). -/
def rtc_tm_to_time (tm : rtc_time) : Nat :=
  mktime (to_uint (tm.tm_year + 1900)) (to_uint (tm.tm_mon + 1)) (to_uint tm.tm_mday)
    (to_uint tm.tm_hour) (to_uint tm.tm_min) (to_uint tm.tm_sec)

/-- The month loop of `rtc_time_to_tm`: starting at `month` with `days` left, walk
forward while a whole month still fits and `month < 11`; `fuel` bounds the iterations. -/
def month_loop (year : Nat) : Nat → Nat → Int → Nat × Int
  | 0, month, days => (month, days)
  | fuel + 1, month, days =>
    if month < 11 then
      let newdays := to_int (days - rtc_month_days month year)
      if newdays < 0 then (month, days) else month_loop year fuel (month + 1) newdays
    else (month, days)

/-- Kernel `rtc_time_to_tm(unsigned long time, struct rtc_time *tm)`. -/
def rtc_time_to_tm (time : Nat) : rtc_time :=
  let days0 : Int := to_int (time / 86400)
  let time1 : Nat := to_ulong ((time : Int) - ((to_uint days0 * 86400) % 4294967296 : Nat))
  let wday : Int := Int.tmod (to_int (days0 + 4)) 7
  let year0 : Nat := to_uint (1970 + Int.tdiv days0 365)
  let sub : Nat := (((year0 + 4294967296 - 1970) % 4294967296) * 365
                    + LEAPS_THRU_END_OF ((year0 + 4294967296 - 1) % 4294967296)
                    + 4294967296 - LEAPS_THRU_END_OF (1970 - 1)) % 4294967296
  let days1 : Int := to_int (days0 - sub)
  let year : Nat := if days1 < 0 then (year0 + 4294967296 - 1) % 4294967296 else year0
  let days2 : Int :=
    if days1 < 0 then to_int (days1 + (365 + (if is_leap_year year then 1 else 0)))
    else days1
  let md := month_loop year 11 0 days2
  let hour : Int := to_int (time1 / 3600)
  let time2 : Nat := to_ulong ((time1 : Int) - to_int (hour * 3600))
  let min : Int := to_int (time2 / 60)
  let sec : Int := to_int ((time2 : Int) - to_int (min * 60))
  { tm_sec := sec, tm_min := min, tm_hour := hour,
    tm_mday := to_int (md.2 + 1), tm_mon := to_int md.1,
    tm_year := to_int ((year : Int) - 1900),
    tm_wday := wday, tm_yday := to_int (days2 + 1), tm_isdst := 0 }

/-! ## The driver -/

/-- The `long` expression returned by `timespec_to_ulong`, before its conversion to
`unsigned long`: `tv_nsec < NSEC_PER_SEC/2 ? tv_sec : tv_sec + 1`. -/
def timespec_round (ts : timespec) : Int :=
  if ts.tv_nsec < NSEC_PER_SEC / 2 then ts.tv_sec else ts.tv_sec + 1

/-- Source `timespec_to_ulong`. -/
def timespec_to_ulong (ts : timespec) : Nat := to_ulong (timespec_round ts)

/-- The argument `time + timespec_to_ulong(&diff)` that `fake_rtc_read_time` hands to
`rtc_time_to_tm`, with `now` the reading of `get_uptime`. -/
def fake_rtc_read_secs (st : State) (now : timespec) : Nat :=
  (st.time + timespec_to_ulong (timespec_sub now st.begtime)) % 18446744073709551616

/-- Source `fake_rtc_read_time`: return code, the filled `rtc_time` and the module
state afterwards. -/
def fake_rtc_read_time (st : State) (now : timespec) : Int × rtc_time × State :=
  let tm := rtc_time_to_tm (fake_rtc_read_secs st now)
  (rtc_valid_tm tm, tm, st)

/-- Source `fake_rtc_set_time`: return code and the module state afterwards, with `now`
the reading of `get_uptime`. -/
def fake_rtc_set_time (st : State) (now : timespec) (tm : rtc_time) : Int × State :=
  if !st.can_set_time then (-ENOSYS, st)
  else (0, { st with begtime := now, time := rtc_tm_to_time tm })

/-- Source `fake_rtc_probe`: `rtc` is the outcome of `rtc_device_register`, `none` for a
device and `some e` for an error pointer with `PTR_ERR` equal to `e`. -/
def fake_rtc_probe (st : State) (now : timespec) (rtc : Option Int) : Int × State :=
  if st.time = 0 then (-ENODEV, st)
  else
    let st1 := { st with begtime := now }
    match rtc with
    | some e => (e, st1)
    | none => (0, { st1 with registered := true })

/-- The module state as loaded: `begtime` zero-initialised, parameters `time` and
`can_set_time` as given on the command line, no device registered. -/
def module_load (time : Nat) (can_set_time : Bool) : State :=
  { begtime := ⟨0, 0⟩, time := time, can_set_time := can_set_time, registered := false }

/-- One call into the driver together with what it reads from its environment. -/
inductive Op where
  | probe (now : timespec) (rtc : Option Int)
  | read (now : timespec)
  | set (now : timespec) (tm : rtc_time)

/-- State after one call. -/
def Op.step (st : State) : Op → State
  | .probe now rtc => (fake_rtc_probe st now rtc).2
  | .read now => (fake_rtc_read_time st now).2.2
  | .set now tm => (fake_rtc_set_time st now tm).2

/-- State after a sequence of calls. -/
def run (st : State) (ops : List Op) : State := ops.foldl Op.step st

/-! ## Vocabulary of the specification -/

/-- A timespec in normal form: `0 <= tv_nsec < NSEC_PER_SEC`. -/
def timespec.normalised (ts : timespec) : Prop := 0 ≤ ts.tv_nsec ∧ ts.tv_nsec < NSEC_PER_SEC

instance (ts : timespec) : Decidable ts.normalised :=
  inferInstanceAs (Decidable (0 ≤ ts.tv_nsec ∧ ts.tv_nsec < NSEC_PER_SEC))

/-- Chronological order of two timespecs (seconds first, then nanoseconds). -/
def timespec.le (a b : timespec) : Prop :=
  a.tv_sec < b.tv_sec ∨ (a.tv_sec = b.tv_sec ∧ a.tv_nsec ≤ b.tv_nsec)

instance (a b : timespec) : Decidable (a.le b) :=
  inferInstanceAs (Decidable (a.tv_sec < b.tv_sec ∨ (a.tv_sec = b.tv_sec ∧ a.tv_nsec ≤ b.tv_nsec)))

/-- The rounding of the specification, written from its words: a duration of `d`
nanoseconds rounded to the nearest whole second, a tie of exactly half a second going
up. -/
def round_half_up (d : Nat) : Nat :=
  if d % 1000000000 < 500000000 then d / 1000000000 else d / 1000000000 + 1

/-- The calendar time 1970-01-01 00:00:00. -/
def tm_epoch : rtc_time :=
  { tm_sec := 0, tm_min := 0, tm_hour := 0, tm_mday := 1, tm_mon := 0, tm_year := 70,
    tm_wday := 4, tm_yday := 1, tm_isdst := 0 }

/-- A structure with month number 12 (the thirteenth month) of 2023. -/
def tm_month13 : rtc_time :=
  { tm_sec := 0, tm_min := 0, tm_hour := 0, tm_mday := 1, tm_mon := 12, tm_year := 123,
    tm_wday := 0, tm_yday := 0, tm_isdst := 0 }

/-- The calendar time 2027-01-15 08:00:00, which encodes to 1800000000 seconds. -/
def tm_1800000000 : rtc_time :=
  { tm_sec := 0, tm_min := 0, tm_hour := 8, tm_mday := 15, tm_mon := 0, tm_year := 127,
    tm_wday := 5, tm_yday := 15, tm_isdst := 0 }

/-! ## Auxiliary facts -/

/-- The fields of a `timespec_sub` result, in closed form. -/
theorem timespec_sub_fields (a b : timespec) :
    (timespec_sub a b).tv_sec = a.tv_sec - b.tv_sec + (a.tv_nsec - b.tv_nsec) / 1000000000
    ∧ (timespec_sub a b).tv_nsec = (a.tv_nsec - b.tv_nsec) % 1000000000 := by
  simp [timespec_sub, NSEC_PER_SEC]

/-- The result of `timespec_sub` is normalised and denotes the exact difference. -/
theorem timespec_sub_spec (a b : timespec) :
    0 ≤ (timespec_sub a b).tv_nsec ∧ (timespec_sub a b).tv_nsec < 1000000000
    ∧ (timespec_sub a b).tv_sec * 1000000000 + (timespec_sub a b).tv_nsec
        = a.tv_sec * 1000000000 + a.tv_nsec - (b.tv_sec * 1000000000 + b.tv_nsec) := by
  obtain ⟨h1, h2⟩ := timespec_sub_fields a b
  rw [h1, h2]
  omega

/-- Unfolding of the seconds value computed by a read. -/
theorem fake_rtc_read_secs_eq (st : State) (now : timespec) :
    fake_rtc_read_secs st now
      = (st.time + ((if (timespec_sub now st.begtime).tv_nsec < 500000000
            then (timespec_sub now st.begtime).tv_sec
            else (timespec_sub now st.begtime).tv_sec + 1) % 18446744073709551616).toNat)
          % 18446744073709551616 := by
  simp [fake_rtc_read_secs, timespec_to_ulong, timespec_round, to_ulong, NSEC_PER_SEC]

/-- A read whose elapsed time is `k` seconds and `f` nanoseconds. -/
theorem read_secs_of_diff (st : State) (now : timespec) (k f : Nat)
    (hd : timespec_sub now st.begtime = ⟨k, f⟩) :
    fake_rtc_read_secs st now
      = (st.time + (if f < 500000000 then k else k + 1)) % 18446744073709551616 := by
  rw [fake_rtc_read_secs_eq, hd]
  simp only
  split_ifs <;> omega

/-- No call changes `can_set_time`. -/
theorem step_can_set_time (st : State) (op : Op) :
    (op.step st).can_set_time = st.can_set_time := by
  cases op with
  | probe now rtc =>
    cases rtc <;> simp only [Op.step, fake_rtc_probe] <;> split_ifs <;> rfl
  | read now => rfl
  | set now tm =>
    simp only [Op.step, fake_rtc_set_time]
    split_ifs <;> rfl

/-- No sequence of calls changes `can_set_time`. -/
theorem run_can_set_time (ops : List Op) (st : State) :
    (run st ops).can_set_time = st.can_set_time := by
  induction ops generalizing st with
  | nil => rfl
  | cons op ops ih =>
    have h := ih (op.step st)
    simp only [run, List.foldl_cons] at h ⊢
    rw [h, step_can_set_time]

/-! ## Reading -/

/-- C1: when `timespec_sub now begtime` is `k` whole seconds and `f` nanoseconds, `f` is
below one second, the pair is the exact elapsed time, and the seconds value that
`fake_rtc_read_time` decodes is `time + k` for `f < 500000000` and `time + k + 1` for
`f >= 500000000`, the sum being an `unsigned long` sum; it is the plain integer sum
whenever that fits in an `unsigned long`. -/
theorem read_rounding_rule (st : State) (now : timespec) (k f : Nat)
    (hd : timespec_sub now st.begtime = ⟨k, f⟩) :
    f < 1000000000
    ∧ now.ns - st.begtime.ns = k * 1000000000 + f
    ∧ (fake_rtc_read_time st now).2.1 = rtc_time_to_tm (fake_rtc_read_secs st now)
    ∧ fake_rtc_read_secs st now
        = (if f < 500000000 then st.time + k else st.time + k + 1) % ULONG_MOD
    ∧ (st.time + k + 1 < ULONG_MOD →
        fake_rtc_read_secs st now
          = if f < 500000000 then st.time + k else st.time + k + 1) := by
  have hs := timespec_sub_spec now st.begtime
  rw [hd] at hs
  simp only at hs
  have hv := read_secs_of_diff st now k f hd
  refine ⟨by omega, ?_, rfl, ?_, ?_⟩
  · simp only [timespec.ns, NSEC_PER_SEC]
    omega
  · rw [hv, ULONG_MOD]
    split_ifs <;> rfl
  · intro hlt
    rw [hv]
    rw [ULONG_MOD] at hlt
    split_ifs <;> omega

/-- Witness for C1: 3.6 s after the baseline the value is `time + 4`, 3.4 s after it
is `time + 3`. -/
theorem read_rounding_rule_witness :
    fake_rtc_read_secs ⟨⟨100, 700000000⟩, 1700000000, false, true⟩ ⟨104, 300000000⟩
      = 1700000004 := by
  have h := (read_rounding_rule ⟨⟨100, 700000000⟩, 1700000000, false, true⟩
    ⟨104, 300000000⟩ 3 600000000 (by decide)).2.2.2.2 (by decide)
  simpa using h

/-- C7: `fake_rtc_read_time` returns the module state it was given, field for field,
and a second read at the same instant yields the same return code and the same
calendar time. -/
theorem read_leaves_state (st : State) (now : timespec) :
    (fake_rtc_read_time st now).2.2 = st
    ∧ (fake_rtc_read_time st now).2.2.begtime = st.begtime
    ∧ (fake_rtc_read_time st now).2.2.time = st.time
    ∧ (fake_rtc_read_time st now).2.2.can_set_time = st.can_set_time
    ∧ fake_rtc_read_time (fake_rtc_read_time st now).2.2 now = fake_rtc_read_time st now
    ∧ fake_rtc_read_secs (fake_rtc_read_time st now).2.2 now = fake_rtc_read_secs st now :=
  ⟨rfl, rfl, rfl, rfl, rfl, rfl⟩

/-! ## Probing -/

/-- C5: with `time = 0` the probe returns `-ENODEV` whatever `can_set_time`, the clock
reading and the registration outcome are, and the module state is returned as it was:
`begtime` is not written and no device becomes registered. -/
theorem probe_not_configured (st : State) (now : timespec) (rtc : Option Int)
    (h : st.time = 0) :
    fake_rtc_probe st now rtc = (-ENODEV, st)
    ∧ (fake_rtc_probe st now rtc).2.begtime = st.begtime
    ∧ (fake_rtc_probe st now rtc).2.registered = st.registered := by
  simp [fake_rtc_probe, h]

/-- Witness for C5: a module loaded without `time`, probed at uptime 7.5 s. -/
theorem probe_not_configured_witness :
    fake_rtc_probe (module_load 0 true) ⟨7, 500000000⟩ none
        = (-ENODEV, module_load 0 true)
    ∧ (fake_rtc_probe (module_load 0 true) ⟨7, 500000000⟩ none).2.registered = false :=
  ⟨(probe_not_configured (module_load 0 true) ⟨7, 500000000⟩ none rfl).1,
   (probe_not_configured (module_load 0 true) ⟨7, 500000000⟩ none rfl).2.2⟩

/-- C6: for a seed `s > 0` a probe whose registration succeeds at instant `m` returns
`0` and leaves the baseline `(m, s)`.  `fake_rtc_read_time` called exactly `t` whole
seconds later fills in the calendar time `rtc_time_to_tm` gives for `s + t`, returns
`rtc_valid_tm` of it and leaves the state alone; `s + t` is the `unsigned long` sum,
which is the integer `s + t` whenever that fits.  Called at `m` itself it fills in the
calendar time for `s`. -/
theorem probe_seed_fidelity (st : State) (m : timespec) (s t : Nat)
    (hs : st.time = s) (hpos : 0 < s) (hlt : s < ULONG_MOD) :
    fake_rtc_probe st m none
        = (0, { begtime := m, time := s, can_set_time := st.can_set_time,
                registered := true })
    ∧ (fake_rtc_probe st m none).2.baseline = (m, s)
    ∧ fake_rtc_read_time (fake_rtc_probe st m none).2 ⟨m.tv_sec + t, m.tv_nsec⟩
        = (rtc_valid_tm (rtc_time_to_tm ((s + t) % ULONG_MOD)),
           rtc_time_to_tm ((s + t) % ULONG_MOD), (fake_rtc_probe st m none).2)
    ∧ (s + t < ULONG_MOD →
        fake_rtc_read_time (fake_rtc_probe st m none).2 ⟨m.tv_sec + t, m.tv_nsec⟩
          = (rtc_valid_tm (rtc_time_to_tm (s + t)), rtc_time_to_tm (s + t),
             (fake_rtc_probe st m none).2))
    ∧ fake_rtc_read_time (fake_rtc_probe st m none).2 m
        = (rtc_valid_tm (rtc_time_to_tm s), rtc_time_to_tm s, (fake_rtc_probe st m none).2)
    ∧ fake_rtc_read_secs (fake_rtc_probe st m none).2 ⟨m.tv_sec + t, m.tv_nsec⟩
        = (s + t) % ULONG_MOD
    ∧ (s + t < ULONG_MOD →
        fake_rtc_read_secs (fake_rtc_probe st m none).2 ⟨m.tv_sec + t, m.tv_nsec⟩ = s + t)
    ∧ fake_rtc_read_secs (fake_rtc_probe st m none).2 m = s := by
  have hne : st.time ≠ 0 := by omega
  have hp : fake_rtc_probe st m none
      = (0, { begtime := m, time := s, can_set_time := st.can_set_time,
              registered := true }) := by
    subst hs
    simp [fake_rtc_probe, hne]
  have hd : ∀ t : Nat, timespec_sub ⟨m.tv_sec + t, m.tv_nsec⟩ m = ⟨t, (0 : Nat)⟩ := by
    intro t
    simp [timespec_sub, NSEC_PER_SEC]
  have hv : ∀ t : Nat,
      fake_rtc_read_secs (fake_rtc_probe st m none).2 ⟨m.tv_sec + t, m.tv_nsec⟩
        = (s + t) % 18446744073709551616 := by
    intro t
    rw [hp]
    have := read_secs_of_diff
      { begtime := m, time := s, can_set_time := st.can_set_time, registered := true }
      ⟨m.tv_sec + t, m.tv_nsec⟩ t 0 (hd t)
    simpa using this
  have hx : s + t < 18446744073709551616 →
      fake_rtc_read_secs (fake_rtc_probe st m none).2 ⟨m.tv_sec + t, m.tv_nsec⟩ = s + t := by
    intro h
    rw [hv t]
    omega
  have hm : fake_rtc_read_secs (fake_rtc_probe st m none).2 m = s := by
    have h0 := hv 0
    simp only [Nat.cast_zero, add_zero] at h0
    rw [h0]
    rw [ULONG_MOD] at hlt
    omega
  rw [ULONG_MOD]
  refine ⟨hp, ?_, ?_, ?_, ?_, hv t, hx, hm⟩
  · rw [hp]; rfl
  · simp only [fake_rtc_read_time, hv t]
  · intro h
    simp only [fake_rtc_read_time, hx h]
  · simp only [fake_rtc_read_time, hm]

/-- Witness for C6: seed 1700000000 probed at uptime 12.25 s; the read 90 s later
succeeds with the calendar time 2023-11-14 22:14:50, which encodes to 1700000090. -/
theorem probe_seed_fidelity_witness :
    fake_rtc_read_time (fake_rtc_probe (module_load 1700000000 false) ⟨12, 250000000⟩ none).2
        ⟨12 + (90 : Nat), 250000000⟩
      = (0, { tm_sec := 50, tm_min := 14, tm_hour := 22, tm_mday := 14, tm_mon := 10,
              tm_year := 123, tm_wday := 2, tm_yday := 318, tm_isdst := 0 },
         (fake_rtc_probe (module_load 1700000000 false) ⟨12, 250000000⟩ none).2)
    ∧ rtc_tm_to_time { tm_sec := 50, tm_min := 14, tm_hour := 22, tm_mday := 14,
                       tm_mon := 10, tm_year := 123, tm_wday := 2, tm_yday := 318,
                       tm_isdst := 0 } = 1700000000 + 90 := by
  have h := (probe_seed_fidelity (module_load 1700000000 false) ⟨12, 250000000⟩
    1700000000 90 rfl (by decide) (by decide)).2.2.2.1 (by decide)
  refine ⟨?_, by decide⟩
  rw [h]
  decide

/-! ## Setting -/

/-- C2: with `can_set_time` false, `fake_rtc_set_time` returns `-ENOSYS` (the error the
specification calls PermissionDenied) for every supplied time and returns the module
state as it was, so `begtime` and `time` are unchanged and a read at any later instant
gives what it would have given without the attempt. -/
theorem set_time_write_gate (st : State) (now : timespec) (tm : rtc_time)
    (h : st.can_set_time = false) :
    fake_rtc_set_time st now tm = (-ENOSYS, st)
    ∧ (fake_rtc_set_time st now tm).2.begtime = st.begtime
    ∧ (fake_rtc_set_time st now tm).2.time = st.time
    ∧ ∀ later : timespec,
        fake_rtc_read_time (fake_rtc_set_time st now tm).2 later = fake_rtc_read_time st later
        ∧ fake_rtc_read_secs (fake_rtc_set_time st now tm).2 later
            = fake_rtc_read_secs st later := by
  have hs : fake_rtc_set_time st now tm = (-ENOSYS, st) := by
    simp [fake_rtc_set_time, h]
  rw [hs]
  exact ⟨rfl, rfl, rfl, fun _ => ⟨rfl, rfl⟩⟩

/-- Witness for C2, the scenario of the specification: seed 1700000000 with writing
disabled, probed at uptime 20 s; the read at once gives 1700000000, the read 3.6 s
later gives 1700000004, setting 1800000000 is denied and the read still gives
1700000004. -/
theorem set_time_write_gate_witness :
    rtc_tm_to_time tm_1800000000 = 1800000000
    ∧ fake_rtc_read_secs (fake_rtc_probe (module_load 1700000000 false) ⟨20, 0⟩ none).2
        ⟨20, 0⟩ = 1700000000
    ∧ fake_rtc_read_secs (fake_rtc_probe (module_load 1700000000 false) ⟨20, 0⟩ none).2
        ⟨23, 600000000⟩ = 1700000004
    ∧ (fake_rtc_set_time (fake_rtc_probe (module_load 1700000000 false) ⟨20, 0⟩ none).2
        ⟨23, 600000000⟩ tm_1800000000).1 = -ENOSYS
    ∧ fake_rtc_read_secs
        (fake_rtc_set_time (fake_rtc_probe (module_load 1700000000 false) ⟨20, 0⟩ none).2
          ⟨23, 600000000⟩ tm_1800000000).2 ⟨23, 600000000⟩ = 1700000004 := by
  have h := set_time_write_gate
    (fake_rtc_probe (module_load 1700000000 false) ⟨20, 0⟩ none).2
    ⟨23, 600000000⟩ tm_1800000000 rfl
  refine ⟨by decide, by decide, by decide, ?_, ?_⟩
  · rw [h.1]
  · rw [(h.2.2.2 ⟨23, 600000000⟩).2]
    decide

/-- C3, counterexample: with writing enabled, setting 1970-01-01 00:00:00 (a valid
calendar time that encodes to 0 seconds) at uptime 5 s succeeds and leaves the baseline
`(5 s, 0)`, whereas a fresh initialisation with seed 0 at the same instant fails with
`-ENODEV` and produces no such baseline. -/
theorem set_time_epoch_not_fresh_init :
    rtc_valid_tm tm_epoch = 0
    ∧ rtc_tm_to_time tm_epoch = 0
    ∧ fake_rtc_set_time ⟨⟨1, 0⟩, 1700000000, true, true⟩ ⟨5, 0⟩ tm_epoch
        = (0, ⟨⟨5, 0⟩, 0, true, true⟩)
    ∧ (fake_rtc_probe (module_load (rtc_tm_to_time tm_epoch) true) ⟨5, 0⟩ none).1 = -ENODEV
    ∧ (fake_rtc_probe (module_load (rtc_tm_to_time tm_epoch) true) ⟨5, 0⟩ none).2.baseline
        ≠ (fake_rtc_set_time ⟨⟨1, 0⟩, 1700000000, true, true⟩ ⟨5, 0⟩ tm_epoch).2.baseline := by
  decide

/-- C3, amended: with `can_set_time` true, `fake_rtc_set_time` at instant `m` returns
`0` and leaves exactly the baseline `(m, x)`, `x` the encoding of the supplied time,
whatever the previous baseline was; for `x > 0` this is the baseline a freshly loaded
module with seed `x` has after a successful probe at `m`.  `fake_rtc_read_time` called
`d` nanoseconds after `m` fills in the calendar time `rtc_time_to_tm` gives for
`x + round_half_up d`, returns `rtc_valid_tm` of it and leaves the state alone; the sum
is the `unsigned long` sum, the integer sum whenever that fits. -/
theorem set_time_rebase (st : State) (m : timespec) (tm : rtc_time)
    (h : st.can_set_time = true) :
    fake_rtc_set_time st m tm
        = (0, { begtime := m, time := rtc_tm_to_time tm, can_set_time := true,
                registered := st.registered })
    ∧ (fake_rtc_set_time st m tm).2.baseline = (m, rtc_tm_to_time tm)
    ∧ (0 < rtc_tm_to_time tm →
        (fake_rtc_probe (module_load (rtc_tm_to_time tm) true) m none).1 = 0
        ∧ (fake_rtc_probe (module_load (rtc_tm_to_time tm) true) m none).2.baseline
            = (fake_rtc_set_time st m tm).2.baseline
        ∧ (fake_rtc_probe (module_load (rtc_tm_to_time tm) true) m none).2.can_set_time
            = (fake_rtc_set_time st m tm).2.can_set_time)
    ∧ ∀ (later : timespec) (d : Nat), later.ns - m.ns = d →
        fake_rtc_read_time (fake_rtc_set_time st m tm).2 later
          = (rtc_valid_tm (rtc_time_to_tm ((rtc_tm_to_time tm + round_half_up d) % ULONG_MOD)),
             rtc_time_to_tm ((rtc_tm_to_time tm + round_half_up d) % ULONG_MOD),
             (fake_rtc_set_time st m tm).2)
        ∧ (rtc_tm_to_time tm + round_half_up d < ULONG_MOD →
            fake_rtc_read_time (fake_rtc_set_time st m tm).2 later
              = (rtc_valid_tm (rtc_time_to_tm (rtc_tm_to_time tm + round_half_up d)),
                 rtc_time_to_tm (rtc_tm_to_time tm + round_half_up d),
                 (fake_rtc_set_time st m tm).2))
        ∧ fake_rtc_read_secs (fake_rtc_set_time st m tm).2 later
          = (rtc_tm_to_time tm + round_half_up d) % ULONG_MOD
        ∧ (rtc_tm_to_time tm + round_half_up d < ULONG_MOD →
            fake_rtc_read_secs (fake_rtc_set_time st m tm).2 later
              = rtc_tm_to_time tm + round_half_up d) := by
  have hs : fake_rtc_set_time st m tm
      = (0, { begtime := m, time := rtc_tm_to_time tm, can_set_time := true,
              registered := st.registered }) := by
    simp [fake_rtc_set_time, h]
  rw [hs]
  refine ⟨rfl, rfl, ?_, ?_⟩
  · intro hx
    have hne : rtc_tm_to_time tm ≠ 0 := by omega
    simp [fake_rtc_probe, module_load, State.baseline, hne]
  · intro later d hd
    simp only [timespec.ns, NSEC_PER_SEC] at hd
    have hsp := timespec_sub_spec later m
    have hk : timespec_sub later m = ⟨(d / 1000000000 : Nat), (d % 1000000000 : Nat)⟩ := by
      cases hts : timespec_sub later m with
      | mk sec nsec =>
        rw [hts] at hsp
        simp only at hsp
        congr 1 <;> omega
    have hv := read_secs_of_diff
      { begtime := m, time := rtc_tm_to_time tm, can_set_time := true,
        registered := st.registered } later _ _ hk
    simp only at hv ⊢
    have hr : (rtc_tm_to_time tm + if d % 1000000000 < 500000000 then d / 1000000000
          else d / 1000000000 + 1) = rtc_tm_to_time tm + round_half_up d := by
      simp [round_half_up]
    rw [hr] at hv
    rw [ULONG_MOD]
    have hx : rtc_tm_to_time tm + round_half_up d < 18446744073709551616 →
        fake_rtc_read_secs ⟨m, rtc_tm_to_time tm, true, st.registered⟩ later
          = rtc_tm_to_time tm + round_half_up d := by
      intro hlt
      rw [hv]
      omega
    refine ⟨?_, ?_, hv, hx⟩
    · simp only [fake_rtc_read_time, hv]
    · intro hlt
      simp only [fake_rtc_read_time, hx hlt]

/-- Witness for C3: setting 2027-01-15 08:00:00 (1800000000) at uptime 40.9 s; the read
2.5 s later succeeds with the calendar time 2027-01-15 08:00:03, which encodes to
1800000003. -/
theorem set_time_rebase_witness :
    fake_rtc_read_time
        (fake_rtc_set_time ⟨⟨1, 0⟩, 1700000000, true, true⟩ ⟨40, 900000000⟩ tm_1800000000).2
        ⟨43, 400000000⟩
      = (0, { tm_sec := 3, tm_min := 0, tm_hour := 8, tm_mday := 15, tm_mon := 0,
              tm_year := 127, tm_wday := 5, tm_yday := 15, tm_isdst := 0 },
         ⟨⟨40, 900000000⟩, 1800000000, true, true⟩)
    ∧ rtc_tm_to_time { tm_sec := 3, tm_min := 0, tm_hour := 8, tm_mday := 15, tm_mon := 0,
                       tm_year := 127, tm_wday := 5, tm_yday := 15, tm_isdst := 0 }
        = 1800000003 := by
  have h := ((set_time_rebase ⟨⟨1, 0⟩, 1700000000, true, true⟩ ⟨40, 900000000⟩
    tm_1800000000 rfl).2.2.2 ⟨43, 400000000⟩ 2500000000 (by decide)).2.1 (by decide)
  refine ⟨?_, by decide⟩
  rw [h]
  decide

/-- C4, counterexample: month number 12 is not a valid calendar time for
`rtc_valid_tm`, yet `fake_rtc_set_time` with writing enabled returns `0` for it and
replaces the baseline. -/
theorem set_time_accepts_invalid :
    rtc_valid_tm tm_month13 = -EINVAL
    ∧ fake_rtc_set_time ⟨⟨1, 0⟩, 1700000000, true, true⟩ ⟨5, 0⟩ tm_month13
        = (0, ⟨⟨5, 0⟩, 1704067200, true, true⟩)
    ∧ (fake_rtc_set_time ⟨⟨1, 0⟩, 1700000000, true, true⟩ ⟨5, 0⟩ tm_month13).2.baseline
        ≠ State.baseline ⟨⟨1, 0⟩, 1700000000, true, true⟩ := by
  decide

/-- C4, amended: `fake_rtc_set_time` does not examine the supplied time.  With writing
enabled it returns `0` for every supplied time, valid or not, and installs the baseline
`(now, rtc_tm_to_time tm)`; it never returns `-EINVAL`. -/
theorem set_time_no_validation (st : State) (now : timespec) (tm : rtc_time)
    (h : st.can_set_time = true) :
    (fake_rtc_set_time st now tm).1 = 0
    ∧ (fake_rtc_set_time st now tm).1 ≠ -EINVAL
    ∧ (fake_rtc_set_time st now tm).2.baseline = (now, rtc_tm_to_time tm) := by
  simp [fake_rtc_set_time, h, State.baseline, EINVAL]

/-- Witness for C4: the thirteenth month is accepted. -/
theorem set_time_no_validation_witness :
    rtc_valid_tm tm_month13 ≠ 0
    ∧ (fake_rtc_set_time ⟨⟨1, 0⟩, 1700000000, true, true⟩ ⟨5, 0⟩ tm_month13).1 = 0 :=
  ⟨by decide,
   (set_time_no_validation ⟨⟨1, 0⟩, 1700000000, true, true⟩ ⟨5, 0⟩ tm_month13 rfl).1⟩

/-! ## Invariants -/

/-- C9: after any sequence of probe, read and set calls, whatever each read from its
environment and whether it succeeded or failed, `can_set_time` has the value it started
with; hence every later set returns `-ENOSYS` if writing was disabled and `0` if it was
enabled. -/
theorem can_set_time_immutable (st : State) (ops : List Op) :
    (run st ops).can_set_time = st.can_set_time
    ∧ ∀ (now : timespec) (tm : rtc_time),
        (fake_rtc_set_time (run st ops) now tm).1
          = if st.can_set_time then 0 else -ENOSYS := by
  have h := run_can_set_time ops st
  refine ⟨h, fun now tm => ?_⟩
  simp only [fake_rtc_set_time, h]
  cases st.can_set_time <;> simp

/-- C10: for normalised readings `begtime <= now1 <= now2` against one baseline, if
`time` plus the rounded elapsed time at `now2` does not exceed the `unsigned long`
range, the seconds value decoded at `now1` is at most the one decoded at `now2`. -/
theorem read_monotone (st : State) (now1 now2 : timespec)
    (hb : st.begtime.normalised) (hn1 : now1.normalised) (hn2 : now2.normalised)
    (h1 : st.begtime.le now1) (h2 : now1.le now2)
    (hw : (st.time : Int) + timespec_round (timespec_sub now2 st.begtime) < ULONG_MOD) :
    fake_rtc_read_secs st now1 ≤ fake_rtc_read_secs st now2 := by
  obtain ⟨f1s, f1n⟩ := timespec_sub_fields now1 st.begtime
  obtain ⟨f2s, f2n⟩ := timespec_sub_fields now2 st.begtime
  simp only [timespec.normalised, timespec.le, NSEC_PER_SEC] at hb hn1 hn2 h1 h2
  simp only [timespec_round, NSEC_PER_SEC, ULONG_MOD] at hw
  rw [fake_rtc_read_secs_eq, fake_rtc_read_secs_eq]
  rw [f2s, f2n] at hw ⊢
  rw [f1s, f1n]
  split_ifs at hw ⊢ <;> omega

/-- Witness for C10: readings 1.4 s and 1.5 s after the baseline. -/
theorem read_monotone_witness :
    fake_rtc_read_secs ⟨⟨10, 800000000⟩, 1700000000, false, true⟩ ⟨12, 200000000⟩
      ≤ fake_rtc_read_secs ⟨⟨10, 800000000⟩, 1700000000, false, true⟩ ⟨12, 300000000⟩ :=
  read_monotone ⟨⟨10, 800000000⟩, 1700000000, false, true⟩ ⟨12, 200000000⟩
    ⟨12, 300000000⟩ (by decide) (by decide) (by decide) (by decide) (by decide)
    (by decide)

end RtcFake
